import Mathlib

/-!
Shallow embedding of the chat-app backend's real-time core and REST message
controller, translated from the JavaScript source:

* src/src/config/socket.js — socket authentication middleware
  (authenticateSocket), the send_message / typing / read_receipt /
  disconnect handlers, and the in-memory onlineUsers map;
* src/unnamed/part_003 — the REST message controller (sendMessage,
  updateMessage);
* src/unnamed/part_004 — the Chat schema (pre-save participant sort,
  statics.findOrCreate) and the User schema (isActive flag);
* src/src/middleware/auth.js — the REST auth middleware;
* src/src/models/Message.js — the Message schema.

Identities and socket ids are strings (stringified ObjectIds); Message and
Chat record ids are natural numbers drawn from per-collection counters;
timestamps are integers (milliseconds since epoch, like Date.now()).
Asynchronous awaits are sequentialized in program order, exactly the order
the handlers execute their steps.  The one fallible durable write the
claims are about — message.save() in the send path — is parameterized by a
Boolean oracle saveOk; a false oracle models the write throwing, which the
source catches in its try/catch.
-/

namespace ChatApp

abbrev UserId := String
abbrev SocketId := String

/-- A value stored in the in-memory onlineUsers map (socket.js lines 29-35). -/
structure PresenceEntry where
  socketId : SocketId
  userId : UserId
  username : String
  status : String
  lastSeen : Int
deriving Repr, DecidableEq

/-- A persisted User document (fields the core reads: part_004 userSchema). -/
structure UserRec where
  id : UserId
  username : String
  isActive : Bool
  status : String
  lastSeen : Int
deriving Repr, DecidableEq

/-- A persisted Message document (src/src/models/Message.js). -/
structure MessageRec where
  id : Nat
  sender : UserId
  receiver : UserId
  content : String
  messageType : String
  mediaUrl : String
  isRead : Bool
  readAt : Option Int
  deliveredAt : Option Int
  edited : Bool
  editedAt : Option Int
  deleted : Bool
  deletedAt : Option Int
  timestamp : Int
deriving Repr, DecidableEq

/-- A persisted Chat document (part_004 chatSchema; fields the core touches). -/
structure ChatRec where
  id : Nat
  participants : List UserId
  lastMessage : Option Nat
  isGroup : Bool
  lastActivity : Int
  updatedAt : Int
deriving Repr, DecidableEq

/-- The durable store: Users, Messages, Chats plus fresh-id counters for the
two collections the core creates documents in. -/
structure Store where
  users : List UserRec
  messages : List MessageRec
  chats : List ChatRec
  nextMessageId : Nat
  nextChatId : Nat
deriving Repr, DecidableEq

/-- The in-memory onlineUsers map, an association list keyed by user id
(socket.js line 8: const onlineUsers = new Map()). -/
abbrev OnlineMap := List (UserId × PresenceEntry)

/-- Map.get: first binding for the key, if any. -/
def mapFind (m : OnlineMap) (k : UserId) : Option PresenceEntry :=
  match m.find? (fun p => p.1 = k) with
  | some p => some p.2
  | none => none

/-- Map.set: replace the existing binding in place, else append. -/
def mapSet (k : UserId) (v : PresenceEntry) : OnlineMap → OnlineMap
  | [] => [(k, v)]
  | p :: rest => if p.1 = k then (k, v) :: rest else p :: mapSet k v rest

/-- Map.delete: remove the binding for the key. -/
def mapDelete (m : OnlineMap) (k : UserId) : OnlineMap :=
  m.filter (fun p => p.1 ≠ k)

/-- Whole server state: the in-memory presence map plus the durable store. -/
structure ServerState where
  onlineUsers : OnlineMap
  store : Store
deriving Repr, DecidableEq

/-- User.findById over the durable store. -/
def findUser (s : Store) (uid : UserId) : Option UserRec :=
  s.users.find? (fun u => u.id = uid)

/-- Message.findById over the durable store. -/
def findMessage (s : Store) (mid : Nat) : Option MessageRec :=
  s.messages.find? (fun m => m.id = mid)

/-- Chat.findById over the durable store. -/
def findChat (s : Store) (cid : Nat) : Option ChatRec :=
  s.chats.find? (fun c => c.id = cid)

/-- User.findByIdAndUpdate of status and lastSeen. -/
def updateUserStatus (s : Store) (uid : UserId) (status : String) (now : Int) : Store :=
  { s with users := s.users.map (fun u =>
      if u.id = uid then { u with status := status, lastSeen := now } else u) }

/-- Replace a message document (message.save() after in-place mutation). -/
def saveMessage (s : Store) (m : MessageRec) : Store :=
  { s with messages := s.messages.map (fun old => if old.id = m.id then m else old) }

/-- Insert into a sorted list, preserving order (helper for the sort below). -/
def insertSorted (x : String) : List String → List String
  | [] => [x]
  | y :: rest => if x ≤ y then x :: y :: rest else y :: insertSorted x rest

/-- JavaScript Array.prototype.sort on stringified ids: lexicographic sort. -/
def sortIds : List String → List String
  | [] => []
  | x :: rest => insertSorted x (sortIds rest)

/-- chat.save(): the chatSchema pre-save hook (part_004 lines 296-302) sorts
the participants and stamps updatedAt before the write lands. -/
def chatPreSave (c : ChatRec) (now : Int) : ChatRec :=
  { c with participants := sortIds c.participants, updatedAt := now }

/-- Replace a chat document (chat.save() after in-place mutation), running
the pre-save hook. -/
def saveChat (s : Store) (c : ChatRec) (now : Int) : Store :=
  { s with chats := s.chats.map (fun old =>
      if old.id = c.id then chatPreSave c now else old) }

/-- Append a freshly created chat document (Chat create + save, with the
pre-save hook applied), bumping the id counter. -/
def createChat (s : Store) (participants : List UserId) (lastMessage : Option Nat)
    (isGroup : Bool) (now : Int) : Store × ChatRec :=
  let c := chatPreSave
    { id := s.nextChatId, participants := participants, lastMessage := lastMessage,
      isGroup := isGroup, lastActivity := now, updatedAt := now } now
  ({ s with chats := s.chats ++ [c], nextChatId := s.nextChatId + 1 }, c)

/-- Mongo find with participants $all [a, b]: first chat whose participants
array contains both ids (socket.js lines 113-115 pass no isGroup filter). -/
def findChatByBothParticipants (s : Store) (a b : UserId) : Option ChatRec :=
  s.chats.find? (fun c => a ∈ c.participants ∧ b ∈ c.participants)

/-- A socket event emitted by a handler, with its destination. -/
inductive Event where
  | errorEv (toSocket : SocketId) (code : String)
  | messageSent (toSocket : SocketId) (messageId : Nat) (chatId : Nat) (timestamp : Int)
  | newMessageDirect (toSocket : SocketId) (messageId : Nat) (sender : UserId)
      (content : String) (timestamp : Int) (chatId : Nat)
  | newMessageRoom (chatId : Nat) (messageId : Nat) (sender : UserId)
      (content : String) (timestamp : Int)
  | typingStatus (toSocket : SocketId) (fromUser : UserId) (isTyping : Bool) (timestamp : Int)
  | messageRead (toSocket : SocketId) (messageId : Nat) (readAt : Int) (chatId : Nat)
  | messageReadRoom (chatId : Nat) (messageId : Nat) (readAt : Int) (readerId : UserId)
  | userOnline (userId : UserId) (username : String) (lastSeen : Int)
  | userOffline (userId : UserId) (username : String) (lastSeen : Int)
deriving Repr, DecidableEq

/-- One step of a handler's observable behaviour, in execution order: either
a durable write of a Message (message.save(), with the oracle's verdict) or
a socket emission.  Chat writes are inside the new store, not traced. -/
inductive Action where
  | persistMessage (m : MessageRec) (ok : Bool)
  | emit (e : Event)
deriving Repr, DecidableEq

/-- The message_sent and new_message emissions the durability claim is about. -/
def Event.isDelivery : Event → Bool
  | .messageSent _ _ _ _ => true
  | .newMessageDirect _ _ _ _ _ _ => true
  | .newMessageRoom _ _ _ _ _ => true
  | _ => false

/-- True when the action emits a message_sent or new_message event. -/
def Action.isDelivery : Action → Bool
  | .emit e => e.isDelivery
  | _ => false

/-- What jwt.verify plus the handshake token extraction can yield: no token
at all, a token that fails verification (jwt.verify throws), or a token
decoding to a user id. -/
inductive TokenResult where
  | missing
  | invalid
  | valid (userId : UserId)
deriving Repr, DecidableEq

/-- Outcome of the socket authentication middleware: next() with an error
(connection rejected) or next() with the socket bound to a user. -/
inductive AuthOutcome where
  | rejected (reason : String)
  | accepted (userId : UserId)
deriving Repr, DecidableEq

/-- authenticateSocket (socket.js lines 10-48): verify the token, look the
user up, then put the socket into onlineUsers and mirror status online into
the store.  The source checks only that the user exists — nothing else. -/
def authenticateSocket (st : ServerState) (socketId : SocketId) (tok : TokenResult)
    (now : Int) : ServerState × AuthOutcome :=
  match tok with
  | .missing => (st, .rejected "Authentication error: No token provided")
  | .invalid => (st, .rejected "Authentication error: Invalid token")
  | .valid uid =>
    match findUser st.store uid with
    | none => (st, .rejected "Authentication error: User not found")
    | some u =>
      let entry : PresenceEntry :=
        { socketId := socketId, userId := uid, username := u.username,
          status := "online", lastSeen := now }
      ({ onlineUsers := mapSet uid entry st.onlineUsers,
         store := updateUserStatus st.store uid "online" now }, .accepted uid)

/-- The disconnect handler (socket.js lines 242-265): mirror status offline,
then onlineUsers.delete(socket.userId), then broadcast user_offline.  The
handler closes over the socket (whose id is the disconnecting handle) but
keys the deletion on socket.userId alone — the handle goes unused. -/
def disconnectHandler (st : ServerState) (userId : UserId) (socketHandle : SocketId)
    (username : String) (now : Int) : ServerState × List Event :=
  let _ := socketHandle
  ({ onlineUsers := mapDelete st.onlineUsers userId,
     store := updateUserStatus st.store userId "offline" now },
   [Event.userOffline userId username now])

/-- The typing handler (socket.js lines 171-180): if the recipient is in
onlineUsers, emit typing_status to its socket; otherwise do nothing.  No
durable state is read or written either way. -/
def typingHandler (st : ServerState) (senderId : UserId) (toUser : UserId)
    (isTyping : Bool) (now : Int) : ServerState × List Event :=
  match mapFind st.onlineUsers toUser with
  | some entry => (st, [Event.typingStatus entry.socketId senderId isTyping now])
  | none => (st, [])

/-- The read_receipt handler (socket.js lines 183-211): load the message; if
it exists and its receiver is the calling socket's user, set isRead/readAt
and save, then notify the sender's socket when the sender is online, then
the chat room; otherwise fall through with no mutation and no emission. -/
def readReceiptHandler (st : ServerState) (readerId : UserId) (messageId : Nat)
    (chatId : Nat) (now : Int) : ServerState × List Event :=
  match findMessage st.store messageId with
  | some m =>
    if m.receiver = readerId then
      let m' := { m with isRead := true, readAt := some now }
      let store' := saveMessage st.store m'
      let senderEvents :=
        match mapFind st.onlineUsers m.sender with
        | some entry => [Event.messageRead entry.socketId messageId now chatId]
        | none => []
      ({ st with store := store' },
       senderEvents ++ [Event.messageReadRoom chatId messageId now readerId])
    else
      (st, [])
  | none => (st, [])

/-- JavaScript falsiness of a maybe-absent string payload field. -/
def falsy : Option String → Bool
  | none => true
  | some s => s = ""

/-- The send_message payload: to, content, chatId destructured from data. -/
structure SendPayload where
  toUser : Option String
  content : Option String
  chatId : Option Nat
deriving Repr, DecidableEq

/-- The send_message handler (socket.js lines 81-168), as a trace of durable
message writes and emissions plus the final state.  Control flow in source
order: validate to/content; build and save the Message (saveOk is the write
oracle; a false verdict is the save throwing, landing in the catch block
that emits SEND_MESSAGE_FAILED); resolve the chat — findById when chatId is
given (when that finds nothing, chat is undefined and reading chat._id at
the message_sent emission throws into the same catch block), otherwise find
by both participants or create; then emit message_sent to the sender,
new_message to the recipient's socket if online, and new_message to the
chat room. -/
def sendMessageHandler (st : ServerState) (senderSocket : SocketId) (senderId : UserId)
    (senderName : String) (data : SendPayload) (now : Int) (saveOk : Bool) :
    ServerState × List Action :=
  if falsy data.toUser ∨ falsy data.content then
    (st, [Action.emit (Event.errorEv senderSocket "INVALID_DATA")])
  else
    let toId := data.toUser.getD ""
    let content := data.content.getD ""
    let m : MessageRec :=
      { id := st.store.nextMessageId, sender := senderId, receiver := toId,
        content := content, messageType := "text", mediaUrl := "",
        isRead := false, readAt := none, deliveredAt := some now,
        edited := false, editedAt := none, deleted := false, deletedAt := none,
        timestamp := now }
    if saveOk then
      let store1 : Store :=
        { st.store with
          messages := st.store.messages ++ [m]
          nextMessageId := st.store.nextMessageId + 1 }
      let afterChat : Option (Store × ChatRec) :=
        match data.chatId with
        | some cid =>
          match findChat store1 cid with
          | some c =>
            let c' := { c with lastMessage := some m.id, updatedAt := now }
            some (saveChat store1 c' now, chatPreSave c' now)
          | none => none
        | none =>
          match findChatByBothParticipants store1 senderId toId with
          | some c =>
            let c' := { c with lastMessage := some m.id, updatedAt := now }
            some (saveChat store1 c' now, chatPreSave c' now)
          | none =>
            some (createChat store1 [senderId, toId] (some m.id) false now)
      match afterChat with
      | none =>
        ({ st with store := store1 },
         [Action.persistMessage m true,
          Action.emit (Event.errorEv senderSocket "SEND_MESSAGE_FAILED")])
      | some (store2, chat) =>
        let recipientEvents :=
          match mapFind st.onlineUsers toId with
          | some entry =>
            [Action.emit (Event.newMessageDirect entry.socketId m.id senderId
              content m.timestamp chat.id)]
          | none => []
        let _ := senderName
        ({ st with store := store2 },
         [Action.persistMessage m true,
          Action.emit (Event.messageSent senderSocket m.id chat.id m.timestamp)] ++
         recipientEvents ++
         [Action.emit (Event.newMessageRoom chat.id m.id senderId content m.timestamp)])
    else
      (st, [Action.persistMessage m false,
            Action.emit (Event.errorEv senderSocket "SEND_MESSAGE_FAILED")])

/-- The events of a trace, in order. -/
def traceEvents (t : List Action) : List Event :=
  t.filterMap (fun a => match a with | .emit e => some e | _ => none)

/-- Outcome of the REST auth middleware: a denial with an HTTP status and
body, or the request proceeding with req.user bound. -/
inductive RestAuth where
  | denied (status : Nat) (msg : String)
  | granted (userId : UserId)
deriving Repr, DecidableEq

/-- The REST auth middleware (src/src/middleware/auth.js lines 5-53):
missing token 401; jwt.verify throwing 401; unknown user 401; inactive
user 403; otherwise the request proceeds. -/
def authREST (users : List UserRec) (tok : TokenResult) : RestAuth :=
  match tok with
  | .missing => .denied 401 "Authentication required. No token provided."
  | .invalid => .denied 401 "Invalid authentication token."
  | .valid uid =>
    match users.find? (fun u => u.id = uid) with
    | none => .denied 401 "Authentication failed. User not found."
    | some u =>
      if u.isActive then .granted uid
      else .denied 403 "Account is deactivated. Please contact support."

/-- An HTTP response from the message controller: a success status or an
error status with the error body string. -/
inductive RestResult where
  | ok (status : Nat)
  | err (status : Nat) (msg : String)
deriving Repr, DecidableEq

/-- Chat.findOrCreate (part_004 lines 352-372): sort the pair, find the
first non-group chat whose participants contain every id of the sorted
pair, else create one (the pre-save hook re-sorts on the way in). -/
def findOrCreate (s : Store) (user1 user2 : UserId) (now : Int) : Store × ChatRec :=
  let ps := sortIds [user1, user2]
  match s.chats.find? (fun c => (∀ x ∈ ps, x ∈ c.participants) ∧ c.isGroup = false) with
  | some c => (s, c)
  | none => createChat s ps none false now

/-- Request body of the REST send endpoint.  messageType and mediaUrl take
their schema defaults in this model (the claims do not touch them). -/
structure RestSendBody where
  toUser : UserId
  content : String
  chatId : Option Nat
deriving Repr, DecidableEq

/-- The REST sendMessage controller (part_003 lines 7-85): reject self-
sends with 400; 404 an unknown recipient; persist the Message (saveOk is
the write oracle, a false verdict landing in the catch block's 500); with
an explicit chatId, load the chat and 404 unless both parties are
participants; otherwise Chat.findOrCreate; finally stamp lastMessage and
lastActivity on the chat and answer 201. -/
def sendMessageRest (s : Store) (fromUser : UserId) (body : RestSendBody)
    (now : Int) (saveOk : Bool) : Store × RestResult :=
  if body.toUser = fromUser then
    (s, .err 400 "Cannot send message to yourself")
  else
    match findUser s body.toUser with
    | none => (s, .err 404 "Recipient not found")
    | some _ =>
      let m : MessageRec :=
        { id := s.nextMessageId, sender := fromUser, receiver := body.toUser,
          content := body.content, messageType := "text", mediaUrl := "",
          isRead := false, readAt := none, deliveredAt := some now,
          edited := false, editedAt := none, deleted := false, deletedAt := none,
          timestamp := now }
      if saveOk then
        let s1 : Store :=
          { s with
            messages := s.messages ++ [m]
            nextMessageId := s.nextMessageId + 1 }
        match body.chatId with
        | some cid =>
          match findChat s1 cid with
          | some c =>
            if fromUser ∈ c.participants ∧ body.toUser ∈ c.participants then
              let c' := { c with lastMessage := some m.id, lastActivity := now }
              (saveChat s1 c' now, .ok 201)
            else
              (s1, .err 404 "Chat not found or access denied")
          | none => (s1, .err 404 "Chat not found or access denied")
        | none =>
          let sc := findOrCreate s1 fromUser body.toUser now
          let c' := { sc.2 with lastMessage := some m.id, lastActivity := now }
          (saveChat sc.1 c' now, .ok 201)
      else
        (s, .err 500 "Failed to send message")

/-- The fixed edit window: 15 minutes in milliseconds (part_003 line 304). -/
def editWindow : Int := 15 * 60 * 1000

/-- The REST updateMessage controller (part_003 lines 284-335): findOne by
id, sender = requester and deleted = false, 404 when nothing matches; 400
when the message's age exceeds the 15-minute window; else write the new
content with edited = true and editedAt stamped. -/
def updateMessage (s : Store) (requester : UserId) (mid : Nat)
    (newContent : String) (now : Int) : Store × RestResult :=
  match s.messages.find? (fun m =>
      m.id = mid ∧ m.sender = requester ∧ m.deleted = false) with
  | none => (s, .err 404 "Message not found or unauthorized")
  | some m =>
    if now - m.timestamp > editWindow then
      (s, .err 400 "Message can only be edited within 15 minutes of sending")
    else
      (saveMessage s { m with content := newContent, edited := true, editedAt := some now },
       .ok 200)

/-- A store with nothing in it. -/
def emptyStore : Store :=
  { users := [], messages := [], chats := [], nextMessageId := 0, nextChatId := 0 }

/-- A server with no online users and an empty store. -/
def emptyServer : ServerState := { onlineUsers := [], store := emptyStore }

/-- A server whose presence map holds one entry for identity X created by
connection handle H2. -/
def supersededServer : ServerState :=
  { onlineUsers := [("X",
      { socketId := "H2", userId := "X", username := "xena",
        status := "online", lastSeen := 0 })],
    store := emptyStore }

/-- A server whose store holds one deactivated user u1. -/
def inactiveUserServer : ServerState :=
  { onlineUsers := [],
    store := { users := [{ id := "u1", username := "bob", isActive := false,
                           status := "offline", lastSeen := 0 }],
               messages := [], chats := [], nextMessageId := 0, nextChatId := 0 } }

/-- A chat (id 5) between C and D only. -/
def chatCD : ChatRec :=
  { id := 5, participants := ["C", "D"], lastMessage := none,
    isGroup := false, lastActivity := 0, updatedAt := 0 }

/-- A server whose store holds only the chat between C and D. -/
def chatCDServer : ServerState :=
  { onlineUsers := [],
    store := { users := [], messages := [], chats := [chatCD],
               nextMessageId := 0, nextChatId := 6 } }

/-- A store holding user B and the chat between C and D. -/
def restCDStore : Store :=
  { users := [{ id := "B", username := "bea", isActive := true,
                status := "offline", lastSeen := 0 }],
    messages := [], chats := [chatCD], nextMessageId := 0, nextChatId := 6 }

/-- A message from A to B sent at time 0, id 0. -/
def msg0 : MessageRec :=
  { id := 0, sender := "A", receiver := "B", content := "hello",
    messageType := "text", mediaUrl := "", isRead := false, readAt := none,
    deliveredAt := some 0, edited := false, editedAt := none, deleted := false,
    deletedAt := none, timestamp := 0 }

/-- A store holding exactly msg0. -/
def oneMsgStore : Store :=
  { users := [], messages := [msg0], chats := [], nextMessageId := 1, nextChatId := 0 }

/-- A server holding msg0 with its sender A online via socket sA. -/
def readReceiptServer : ServerState :=
  { onlineUsers := [("A",
      { socketId := "sA", userId := "A", username := "alice",
        status := "online", lastSeen := 0 })],
    store := oneMsgStore }

theorem find?_filter_ne (m : OnlineMap) (k : UserId) :
    (m.filter (fun q => q.1 ≠ k)).find? (fun q => q.1 = k) = none := by
  induction m with
  | nil => rfl
  | cons p rest ih =>
    by_cases h : p.1 = k
    · simp [List.filter_cons, h, ih]
    · simp [List.filter_cons, h, List.find?_cons, ih]

theorem mapFind_mapDelete (m : OnlineMap) (k : UserId) :
    mapFind (mapDelete m k) k = none := by
  simp only [mapFind, mapDelete]
  rw [find?_filter_ne]

theorem mapFind_mapSet (k : UserId) (v : PresenceEntry) (m : OnlineMap) :
    mapFind (mapSet k v m) k = some v := by
  induction m with
  | nil => simp [mapSet, mapFind, List.find?_cons]
  | cons p rest ih =>
    by_cases h : p.1 = k
    · simp [mapSet, h, mapFind, List.find?_cons]
    · simpa [mapSet, h, mapFind, List.find?_cons] using ih

theorem find?_eq_some_unique {α : Type} (l : List α) (p : α → Bool) (a : α)
    (ha : a ∈ l) (hpa : p a = true) (huniq : ∀ x ∈ l, p x = true → x = a) :
    l.find? p = some a := by
  induction l with
  | nil => cases ha
  | cons x rest ih =>
    by_cases hx : p x = true
    · have hxa : x = a := huniq x (by simp) hx
      subst hxa
      simp [List.find?_cons, hx]
    · have hxa : x ≠ a := fun h => hx (h ▸ hpa)
      have ha' : a ∈ rest := by
        rcases List.mem_cons.mp ha with h | h
        · exact absurd h.symm hxa
        · exact h
      simpa [List.find?_cons, hx] using
        ih ha' (fun y hy hpy => huniq y (by simp [hy]) hpy)

theorem mem_insertSorted (y x : String) (l : List String) :
    y ∈ insertSorted x l ↔ y = x ∨ y ∈ l := by
  induction l with
  | nil => simp [insertSorted]
  | cons z rest ih =>
    by_cases h : x ≤ z
    · simp [insertSorted, h]
    · simp [insertSorted, h, ih]
      tauto

theorem mem_sortIds (y : String) (l : List String) : y ∈ sortIds l ↔ y ∈ l := by
  induction l with
  | nil => simp [sortIds]
  | cons x rest ih => simp [sortIds, mem_insertSorted, ih]

theorem sortIds_pair (a b : String) :
    sortIds [a, b] = if a ≤ b then [a, b] else [b, a] := by
  simp [sortIds, insertSorted]

theorem sortIds_pair_idem (a b : String) :
    sortIds (sortIds [a, b]) = sortIds [a, b] := by
  rw [sortIds_pair]
  by_cases h : a ≤ b
  · simp [h, sortIds_pair]
  · have hba : b ≤ a := le_of_not_le h
    simp [h, sortIds_pair, hba]

theorem map_id_of_mem {α : Type} (l : List α) (f : α → α) (h : ∀ x ∈ l, f x = x) :
    l.map f = l := by
  induction l with
  | nil => rfl
  | cons x rest ih =>
    simp [h x (by simp), ih (fun y hy => h y (by simp [hy]))]

/-- C1 counterexample: identity X is registered with current handle H2; a
disconnect carrying the distinct stale handle H1 nevertheless removes X's
presence entry, because the handler deletes by identity alone. -/
theorem stale_disconnect_removes_entry_cex :
    mapFind ((disconnectHandler supersededServer "X" "H1" "xena" 1).1).onlineUsers "X"
      = none ∧ ("H1" : SocketId) ≠ "H2" := by
  constructor
  · rfl
  · decide

/-- C1 (amended): processing a disconnect removes the disconnecting
identity's presence entry unconditionally — the handler keys the deletion
on the identity and never compares the disconnecting handle with the
entry's current handle, so the removal is the same for every handle. -/
theorem disconnect_removes_entry_unconditionally (st : ServerState) (uid : UserId)
    (handle handle2 : SocketId) (uname : String) (now : Int) :
    mapFind ((disconnectHandler st uid handle uname now).1).onlineUsers uid = none ∧
    disconnectHandler st uid handle uname now = disconnectHandler st uid handle2 uname now := by
  exact ⟨mapFind_mapDelete st.onlineUsers uid, rfl⟩

/-- C9: a typing event never mutates server state; when the recipient has
no presence entry it produces no event at all (no error, no ack), and the
typing_status event goes out only when the recipient is registered, to the
recipient's live socket. -/
theorem typing_offline_silently_dropped (st : ServerState) (senderId toUser : UserId)
    (isT : Bool) (now : Int) :
    (typingHandler st senderId toUser isT now).1 = st ∧
    (mapFind st.onlineUsers toUser = none →
      (typingHandler st senderId toUser isT now).2 = []) ∧
    (∀ e, mapFind st.onlineUsers toUser = some e →
      (typingHandler st senderId toUser isT now).2 =
        [Event.typingStatus e.socketId senderId isT now]) := by
  cases h : mapFind st.onlineUsers toUser with
  | none =>
    refine ⟨?_, ?_, ?_⟩ <;> simp [typingHandler, h]
  | some e =>
    refine ⟨?_, ?_, ?_⟩ <;> simp [typingHandler, h]

/-- C9 witness: typing to disconnected B on an empty server changes
nothing and emits nothing. -/
theorem typing_offline_silently_dropped_witness :
    (typingHandler emptyServer "A" "B" true 0).1 = emptyServer ∧
    (typingHandler emptyServer "A" "B" true 0).2 = [] :=
  ⟨(typing_offline_silently_dropped emptyServer "A" "B" true 0).1,
   (typing_offline_silently_dropped emptyServer "A" "B" true 0).2.1 rfl⟩

/-- C10: a send_message payload whose to or content field is missing (or
empty, JavaScript falsiness) makes the handler return the unchanged state
and emit exactly one error event with code INVALID_DATA to the sending
socket; nothing is persisted or mutated. -/
theorem send_missing_fields_invalid_data (st : ServerState) (sock : SocketId)
    (uid : UserId) (uname : String) (data : SendPayload) (now : Int) (saveOk : Bool)
    (h : falsy data.toUser = true ∨ falsy data.content = true) :
    sendMessageHandler st sock uid uname data now saveOk =
      (st, [Action.emit (Event.errorEv sock "INVALID_DATA")]) := by
  unfold sendMessageHandler
  have hcond : (falsy data.toUser = true ∨ falsy data.content = true) := h
  rw [if_pos hcond]

/-- C10 witness: a payload with no recipient field triggers the
INVALID_DATA error and leaves the empty server untouched. -/
theorem send_missing_fields_invalid_data_witness :
    sendMessageHandler emptyServer "s1" "A" "alice"
        { toUser := none, content := some "hi", chatId := none } 0 true =
      (emptyServer, [Action.emit (Event.errorEv "s1" "INVALID_DATA")]) :=
  send_missing_fields_invalid_data emptyServer "s1" "A" "alice"
    { toUser := none, content := some "hi", chatId := none } 0 true (Or.inl rfl)

/-- C4 counterexample: the socket send_message handler performs no
self-send check — sending from A to A persists a Message record whose
sender and receiver are both A, and the operation succeeds (message_sent
is emitted), contradicting the claim that it fails with SelfMessage and
leaves the store unchanged. -/
theorem socket_self_send_creates_record_cex :
    ((sendMessageHandler emptyServer "s1" "A" "alice"
        { toUser := some "A", content := some "hi", chatId := none } 0 true).1).store.messages =
      [{ id := 0, sender := "A", receiver := "A", content := "hi",
         messageType := "text", mediaUrl := "", isRead := false, readAt := none,
         deliveredAt := some 0, edited := false, editedAt := none, deleted := false,
         deletedAt := none, timestamp := 0 }] ∧
    Action.emit (Event.messageSent "s1" 0 0 0) ∈
      (sendMessageHandler emptyServer "s1" "A" "alice"
        { toUser := some "A", content := some "hi", chatId := none } 0 true).2 := by
  constructor
  · rfl
  · simp [sendMessageHandler, emptyServer, emptyStore, falsy, findChatByBothParticipants,
      createChat, chatPreSave, mapFind, sortIds, insertSorted]

/-- C4 (amended): only the REST sendMessage endpoint rejects a self-send —
it answers 400 'Cannot send message to yourself' and leaves the store
untouched; the socket send_message handler has no such check and persists
the self-message. -/
theorem rest_self_send_rejected (s : Store) (fromUser : UserId) (content : String)
    (cid : Option Nat) (now : Int) (saveOk : Bool) :
    sendMessageRest s fromUser
        { toUser := fromUser, content := content, chatId := cid } now saveOk =
      (s, RestResult.err 400 "Cannot send message to yourself") := by
  unfold sendMessageRest
  rw [if_pos rfl]

/-- C5 counterexample: the socket handshake accepts a user whose isActive
flag is false and registers a presence entry for it, contradicting the
claim that the connection is rejected with no entry registered. -/
theorem inactive_socket_auth_accepted_cex :
    (authenticateSocket inactiveUserServer "s1" (TokenResult.valid "u1") 5).2 =
      AuthOutcome.accepted "u1" ∧
    mapFind ((authenticateSocket inactiveUserServer "s1" (TokenResult.valid "u1") 5).1).onlineUsers
        "u1" =
      some { socketId := "s1", userId := "u1", username := "bob",
             status := "online", lastSeen := 5 } := by
  constructor
  · rfl
  · rfl

/-- C5 (amended): the socket handshake never consults the active flag — a
valid credential for any existing user, deactivated or not, is accepted
and a presence entry is registered; only the REST auth middleware rejects
a deactivated user, with 403 'Account is deactivated'. -/
theorem socket_auth_ignores_active_flag (st : ServerState) (sock : SocketId)
    (uid : UserId) (now : Int) (u : UserRec)
    (hu : findUser st.store uid = some u) :
    (authenticateSocket st sock (TokenResult.valid uid) now).2 = AuthOutcome.accepted uid ∧
    mapFind ((authenticateSocket st sock (TokenResult.valid uid) now).1).onlineUsers uid =
      some { socketId := sock, userId := uid, username := u.username,
             status := "online", lastSeen := now } ∧
    (u.isActive = false →
      authREST st.store.users (TokenResult.valid uid) =
        RestAuth.denied 403 "Account is deactivated. Please contact support.") := by
  have hfind : st.store.users.find? (fun v => v.id = uid) = some u := hu
  refine ⟨?_, ?_, ?_⟩
  · simp [authenticateSocket, hu]
  · simp [authenticateSocket, hu, mapFind_mapSet]
  · intro hActive
    simp [authREST, hfind, hActive]

/-- C5 witness: the deactivated user u1 is accepted by the socket
handshake, registered online, while the REST middleware denies it 403. -/
theorem socket_auth_ignores_active_flag_witness :
    (authenticateSocket inactiveUserServer "s2" (TokenResult.valid "u1") 7).2 =
      AuthOutcome.accepted "u1" ∧
    mapFind ((authenticateSocket inactiveUserServer "s2" (TokenResult.valid "u1") 7).1).onlineUsers
        "u1" =
      some { socketId := "s2", userId := "u1", username := "bob",
             status := "online", lastSeen := 7 } ∧
    authREST inactiveUserServer.store.users (TokenResult.valid "u1") =
      RestAuth.denied 403 "Account is deactivated. Please contact support." :=
  ⟨(socket_auth_ignores_active_flag inactiveUserServer "s2" "u1" 7
      { id := "u1", username := "bob", isActive := false, status := "offline", lastSeen := 0 }
      rfl).1,
   (socket_auth_ignores_active_flag inactiveUserServer "s2" "u1" 7
      { id := "u1", username := "bob", isActive := false, status := "offline", lastSeen := 0 }
      rfl).2.1,
   (socket_auth_ignores_active_flag inactiveUserServer "s2" "u1" 7
      { id := "u1", username := "bob", isActive := false, status := "offline", lastSeen := 0 }
      rfl).2.2 rfl⟩

/-- C6 counterexample: sending over the socket with an explicit chatId
naming a chat whose participants are C and D only, from sender A to
recipient B, succeeds — the trace persists the message and emits
message_sent with that chat id and new_message to its room, with no error
event — contradicting the claim that such a send fails with
ChatNotFoundOrForbidden. -/
theorem socket_chatid_skips_participant_check_cex :
    (sendMessageHandler chatCDServer "s1" "A" "alice"
        { toUser := some "B", content := some "hi", chatId := some 5 } 0 true).2 =
      [Action.persistMessage
        { id := 0, sender := "A", receiver := "B", content := "hi",
          messageType := "text", mediaUrl := "", isRead := false, readAt := none,
          deliveredAt := some 0, edited := false, editedAt := none, deleted := false,
          deletedAt := none, timestamp := 0 } true,
       Action.emit (Event.messageSent "s1" 0 5 0),
       Action.emit (Event.newMessageRoom 5 0 "A" "hi" 0)] := by
  rfl

/-- C6 (amended): only the REST sendMessage endpoint verifies the named
chat: when the chatId names no chat, or names one missing either the
sender or the recipient among its participants, it answers 404 'Chat not
found or access denied' and mutates no chat; the socket send_message
handler performs no participant verification at all. -/
theorem findChat_ignores_messages (s : Store) (ms : List MessageRec) (n : Nat) (cid : Nat) :
    findChat { s with messages := ms, nextMessageId := n } cid = findChat s cid := rfl

theorem rest_chatid_verifies_participants (s : Store) (fromUser : UserId)
    (body : RestSendBody) (now : Int) (cid : Nat)
    (hne : body.toUser ≠ fromUser)
    (hrec : (findUser s body.toUser).isSome = true)
    (hcid : body.chatId = some cid)
    (hbad : ∀ c, findChat s cid = some c →
      fromUser ∉ c.participants ∨ body.toUser ∉ c.participants) :
    (sendMessageRest s fromUser body now true).2 =
      RestResult.err 404 "Chat not found or access denied" ∧
    ((sendMessageRest s fromUser body now true).1).chats = s.chats := by
  obtain ⟨u, hu⟩ := Option.isSome_iff_exists.mp hrec
  unfold sendMessageRest
  rw [if_neg hne]
  simp only [hu, hcid]
  rw [findChat_ignores_messages]
  rcases hc : findChat s cid with _ | c
  · simp
  · have hnotin := hbad c hc
    have hcond : ¬(fromUser ∈ c.participants ∧ body.toUser ∈ c.participants) := by
      intro hcontra
      rcases hnotin with h | h
      · exact h hcontra.1
      · exact h hcontra.2
    simp [hcond]

/-- C6 witness: with chat 5 owned by C and D, a REST send from A to B
naming chatId 5 is refused with 404 and the chat list is untouched (B
exists as a user so the recipient check passes). -/
theorem rest_chatid_verifies_participants_witness :
    (sendMessageRest restCDStore "A"
        { toUser := "B", content := "hi", chatId := some 5 } 0 true).2 =
      RestResult.err 404 "Chat not found or access denied" ∧
    ((sendMessageRest restCDStore "A"
        { toUser := "B", content := "hi", chatId := some 5 } 0 true).1).chats =
      restCDStore.chats :=
  rest_chatid_verifies_participants restCDStore "A"
    { toUser := "B", content := "hi", chatId := some 5 } 0 5
    (by decide) rfl rfl
    (by intro c hc; cases hc; decide)

/-- C7: a message may be edited only by its sender and only within the
fixed 15-minute window measured from its sent timestamp: a requester who
is not the sender gets 404; the sender past the window gets the
EditWindowExpired 400; the sender within the window succeeds and the
stored record gains content, edited = true and editedAt = now. -/
theorem edit_requires_sender_within_window (s : Store) (requester : UserId)
    (mid : Nat) (newContent : String) (now : Int) (m : MessageRec)
    (hm : m ∈ s.messages) (hid : m.id = mid)
    (huniq : ∀ m2 ∈ s.messages, m2.id = mid → m2 = m) :
    (m.sender ≠ requester →
      updateMessage s requester mid newContent now =
        (s, RestResult.err 404 "Message not found or unauthorized")) ∧
    (m.sender = requester → m.deleted = false → now - m.timestamp > editWindow →
      updateMessage s requester mid newContent now =
        (s, RestResult.err 400 "Message can only be edited within 15 minutes of sending")) ∧
    (m.sender = requester → m.deleted = false → now - m.timestamp ≤ editWindow →
      updateMessage s requester mid newContent now =
        (saveMessage s { m with content := newContent, edited := true, editedAt := some now },
         RestResult.ok 200)) := by
  have hpred : ∀ x : MessageRec,
      (decide (x.id = mid ∧ x.sender = requester ∧ x.deleted = false)) = true ↔
      (x.id = mid ∧ x.sender = requester ∧ x.deleted = false) := by
    intro x
    simp
  refine ⟨?_, ?_, ?_⟩
  · intro hsend
    have hnone : s.messages.find? (fun m2 =>
        decide (m2.id = mid ∧ m2.sender = requester ∧ m2.deleted = false)) = none := by
      apply List.find?_eq_none.mpr
      intro m2 hm2 hp
      obtain ⟨h2id, h2send, _⟩ := (hpred m2).mp hp
      exact hsend ((huniq m2 hm2 h2id) ▸ h2send)
    unfold updateMessage
    rw [hnone]
  · intro hsend hdel hage
    have hsome : s.messages.find? (fun m2 =>
        decide (m2.id = mid ∧ m2.sender = requester ∧ m2.deleted = false)) = some m := by
      apply find?_eq_some_unique _ _ _ hm
      · exact (hpred m).mpr ⟨hid, hsend, hdel⟩
      · intro x hx hpx
        exact huniq x hx ((hpred x).mp hpx).1
    unfold updateMessage
    simp only [hsome]
    rw [if_pos hage]
  · intro hsend hdel hage
    have hsome : s.messages.find? (fun m2 =>
        decide (m2.id = mid ∧ m2.sender = requester ∧ m2.deleted = false)) = some m := by
      apply find?_eq_some_unique _ _ _ hm
      · exact (hpred m).mpr ⟨hid, hsend, hdel⟩
      · intro x hx hpx
        exact huniq x hx ((hpred x).mp hpx).1
    have hnot : ¬(editWindow < now - m.timestamp) := not_lt.mpr hage
    unfold updateMessage
    simp only [hsome]
    rw [if_neg hnot]

/-- C7 witness: msg0 (sender A, sent at 0): B's edit attempt gets 404; A's
edit at age 901000 ms (15:01) gets the window error; A's edit at age
899000 ms (14:59) succeeds and stores the edited record. -/
theorem edit_requires_sender_within_window_witness :
    (updateMessage oneMsgStore "B" 0 "new" 899000 =
      (oneMsgStore, RestResult.err 404 "Message not found or unauthorized")) ∧
    (updateMessage oneMsgStore "A" 0 "new" 901000 =
      (oneMsgStore, RestResult.err 400 "Message can only be edited within 15 minutes of sending")) ∧
    (updateMessage oneMsgStore "A" 0 "new" 899000 =
      (saveMessage oneMsgStore { msg0 with content := "new", edited := true, editedAt := some 899000 },
       RestResult.ok 200)) :=
  ⟨(edit_requires_sender_within_window oneMsgStore "B" 0 "new" 899000 msg0
      (by simp [oneMsgStore]) rfl (by intro m2 hm2 _; simpa [oneMsgStore] using hm2)).1
      (by decide),
   (edit_requires_sender_within_window oneMsgStore "A" 0 "new" 901000 msg0
      (by simp [oneMsgStore]) rfl (by intro m2 hm2 _; simpa [oneMsgStore] using hm2)).2.1
      rfl rfl (by decide),
   (edit_requires_sender_within_window oneMsgStore "A" 0 "new" 899000 msg0
      (by simp [oneMsgStore]) rfl (by intro m2 hm2 _; simpa [oneMsgStore] using hm2)).2.2
      rfl rfl (by decide)⟩

/-- C8: a read_receipt mutates the read flag and read timestamp only when
the reader is the message's receiver — on a missing message or a reader
other than the receiver the state is returned unchanged and nothing is
emitted; when the reader is the receiver and the original sender is
online, the message is saved with isRead and readAt = now, the sender's
socket receives message_read carrying the same messageId and a readAt no
earlier than the message's sent timestamp, and the chat room is notified. -/
theorem read_receipt_receiver_guard (st : ServerState) (readerId : UserId)
    (mid cid : Nat) (now : Int) :
    (findMessage st.store mid = none →
      readReceiptHandler st readerId mid cid now = (st, [])) ∧
    (∀ m, findMessage st.store mid = some m → m.receiver ≠ readerId →
      readReceiptHandler st readerId mid cid now = (st, [])) ∧
    (∀ m entry, findMessage st.store mid = some m → m.receiver = readerId →
      mapFind st.onlineUsers m.sender = some entry → m.timestamp ≤ now →
      ((readReceiptHandler st readerId mid cid now).1).store =
        saveMessage st.store { m with isRead := true, readAt := some now } ∧
      (readReceiptHandler st readerId mid cid now).2 =
        [Event.messageRead entry.socketId mid now cid,
         Event.messageReadRoom cid mid now readerId] ∧
      m.timestamp ≤ now) := by
  refine ⟨?_, ?_, ?_⟩
  · intro h
    simp [readReceiptHandler, h]
  · intro m hm hne
    simp [readReceiptHandler, hm, hne]
  · intro m entry hm hrecv hlook hts
    refine ⟨?_, ?_, hts⟩
    · simp [readReceiptHandler, hm, hrecv, hlook]
    · simp [readReceiptHandler, hm, hrecv, hlook]

/-- C8 witness: B marks msg0 (sender A, sent at 0) read at time 10 while A
is online via socket sA: the store gains the read flags and A's socket
gets message_read with readAt 10 ≥ 0. -/
theorem read_receipt_receiver_guard_witness :
    ((readReceiptHandler readReceiptServer "B" 0 3 10).1).store =
      saveMessage readReceiptServer.store { msg0 with isRead := true, readAt := some 10 } ∧
    (readReceiptHandler readReceiptServer "B" 0 3 10).2 =
      [Event.messageRead "sA" 0 10 3, Event.messageReadRoom 3 0 10 "B"] ∧
    msg0.timestamp ≤ (10 : Int) :=
  (read_receipt_receiver_guard readReceiptServer "B" 0 3 10).2.2 msg0
    { socketId := "sA", userId := "A", username := "alice",
      status := "online", lastSeen := 0 }
    rfl rfl rfl (by decide)

theorem delivery_needs_persisted_head (t : List Action) (m : MessageRec)
    (h0 : t.get? 0 = some (Action.persistMessage m true)) :
    ∀ k a, t.get? k = some a → a.isDelivery = true →
      ∃ m2 j, j < k ∧ t.get? j = some (Action.persistMessage m2 true) := by
  intro k a hk hd
  refine ⟨m, 0, ?_, h0⟩
  cases k with
  | zero =>
    have hak := h0.symm.trans hk
    injection hak with h
    rw [← h] at hd
    simp [Action.isDelivery] at hd
  | succ n => exact Nat.succ_pos n

/-- C2: in the send_message handler the durable message write strictly
precedes every message_sent and new_message emission — any delivery action
in the trace is preceded by a successful persistMessage — and when the
write fails (saveOk = false) the trace contains no delivery emission at
all and the server state is returned unchanged. -/
theorem send_durability_before_delivery (st : ServerState) (sock : SocketId)
    (uid : UserId) (uname : String) (data : SendPayload) (now : Int) (saveOk : Bool) :
    (saveOk = false →
      (∀ a ∈ (sendMessageHandler st sock uid uname data now saveOk).2,
        a.isDelivery = false) ∧
      (sendMessageHandler st sock uid uname data now saveOk).1 = st) ∧
    (∀ k a, ((sendMessageHandler st sock uid uname data now saveOk).2).get? k = some a →
      a.isDelivery = true →
      ∃ m j, j < k ∧ ((sendMessageHandler st sock uid uname data now saveOk).2).get? j =
        some (Action.persistMessage m true)) := by
  by_cases hf : (falsy data.toUser = true ∨ falsy data.content = true)
  · unfold sendMessageHandler
    rw [if_pos hf]
    constructor
    · intro _
      constructor
      · intro a ha
        simp at ha
        subst ha
        simp [Action.isDelivery, Event.isDelivery]
      · rfl
    · intro k a hk hd
      cases k with
      | zero =>
        simp at hk
        subst hk
        simp [Action.isDelivery, Event.isDelivery] at hd
      | succ n =>
        simp at hk
  · unfold sendMessageHandler
    rw [if_neg hf]
    cases saveOk with
    | false =>
      rw [if_neg Bool.false_ne_true]
      constructor
      · intro _
        constructor
        · intro a ha
          simp at ha
          rcases ha with rfl | rfl <;> simp [Action.isDelivery, Event.isDelivery]
        · rfl
      · intro k a hk hd
        cases k with
        | zero =>
          simp at hk
          subst hk
          simp [Action.isDelivery] at hd
        | succ n =>
          cases n with
          | zero =>
            simp at hk
            subst hk
            simp [Action.isDelivery, Event.isDelivery] at hd
          | succ n2 =>
            simp at hk
    | true =>
      rw [if_pos rfl]
      constructor
      · intro h
        exact absurd h (by simp)
      · intro k a hk hd
        refine delivery_needs_persisted_head _
          { id := st.store.nextMessageId, sender := uid, receiver := data.toUser.getD "",
            content := data.content.getD "", messageType := "text", mediaUrl := "",
            isRead := false, readAt := none, deliveredAt := some now, edited := false,
            editedAt := none, deleted := false, deletedAt := none, timestamp := now }
          ?_ k a hk hd
        dsimp only
        split <;> rfl

/-- C2 witness: on an empty server with a failing durable write
(saveOk = false), the send emits no delivery event and the state is
unchanged; also any delivery action in that trace would be preceded by a
successful persist (vacuously). -/
theorem send_durability_before_delivery_witness :
    ((∀ a ∈ (sendMessageHandler emptyServer "s1" "A" "alice"
        { toUser := some "B", content := some "hi", chatId := none } 0 false).2,
      a.isDelivery = false) ∧
     (sendMessageHandler emptyServer "s1" "A" "alice"
        { toUser := some "B", content := some "hi", chatId := none } 0 false).1 =
       emptyServer) :=
  (send_durability_before_delivery emptyServer "s1" "A" "alice"
    { toUser := some "B", content := some "hi", chatId := none } 0 false).1 rfl

theorem send_no_chatid_create (st : ServerState) (sock : SocketId) (uid : UserId)
    (uname : String) (toId content : String) (now : Int)
    (hto : ¬toId = "") (hc : ¬content = "")
    (hfind : st.store.chats.find?
      (fun c => uid ∈ c.participants ∧ toId ∈ c.participants) = none) :
    (sendMessageHandler st sock uid uname
        { toUser := some toId, content := some content, chatId := none } now true).1 =
      { onlineUsers := st.onlineUsers,
        store :=
          { users := st.store.users
            messages := st.store.messages ++
              [{ id := st.store.nextMessageId, sender := uid, receiver := toId,
                 content := content, messageType := "text", mediaUrl := "",
                 isRead := false, readAt := none, deliveredAt := some now,
                 edited := false, editedAt := none, deleted := false, deletedAt := none,
                 timestamp := now }]
            chats := st.store.chats ++
              [{ id := st.store.nextChatId, participants := sortIds [uid, toId],
                 lastMessage := some st.store.nextMessageId, isGroup := false,
                 lastActivity := now, updatedAt := now }]
            nextMessageId := st.store.nextMessageId + 1
            nextChatId := st.store.nextChatId + 1 } } := by
  have hcond : ¬(falsy (some toId) = true ∨ falsy (some content) = true) := by
    simp [falsy, hto, hc]
  unfold sendMessageHandler
  rw [if_neg hcond, if_pos rfl]
  dsimp only [findChatByBothParticipants, Option.getD_some]
  rw [hfind]
  rfl

theorem send_no_chatid_found (st : ServerState) (sock : SocketId) (uid : UserId)
    (uname : String) (toId content : String) (now : Int)
    (hto : ¬toId = "") (hc : ¬content = "") (c : ChatRec)
    (hfind : st.store.chats.find?
      (fun c2 => uid ∈ c2.participants ∧ toId ∈ c2.participants) = some c) :
    (sendMessageHandler st sock uid uname
        { toUser := some toId, content := some content, chatId := none } now true).1 =
      { onlineUsers := st.onlineUsers,
        store :=
          { users := st.store.users
            messages := st.store.messages ++
              [{ id := st.store.nextMessageId, sender := uid, receiver := toId,
                 content := content, messageType := "text", mediaUrl := "",
                 isRead := false, readAt := none, deliveredAt := some now,
                 edited := false, editedAt := none, deleted := false, deletedAt := none,
                 timestamp := now }]
            chats := st.store.chats.map (fun old =>
              if old.id = c.id then
                chatPreSave
                  { c with lastMessage := some st.store.nextMessageId, updatedAt := now } now
              else old)
            nextMessageId := st.store.nextMessageId + 1
            nextChatId := st.store.nextChatId } } := by
  have hcond : ¬(falsy (some toId) = true ∨ falsy (some content) = true) := by
    simp [falsy, hto, hc]
  unfold sendMessageHandler
  rw [if_neg hcond, if_pos rfl]
  dsimp only [findChatByBothParticipants, Option.getD_some]
  rw [hfind]
  rfl

/-- C3: starting from a store holding no chat containing both A and B,
two sequential sends A to B with no explicit chatId leave exactly one chat
containing both A and B; every such chat has the canonicalized (sorted)
pair as its participants and is non-group; and the second send creates no
chat (it finds and updates the chat the first send created). -/
theorem double_send_single_chat (st : ServerState) (sock : SocketId) (uname : String)
    (A B : UserId) (m1 m2 : String) (t1 t2 : Int)
    (hAB : A ≠ B) (hB : B ≠ "") (hm1 : m1 ≠ "") (hm2 : m2 ≠ "")
    (hno : ∀ c ∈ st.store.chats, ¬(A ∈ c.participants ∧ B ∈ c.participants))
    (hwf : ∀ c ∈ st.store.chats, c.id < st.store.nextChatId) :
    ((((sendMessageHandler
        (sendMessageHandler st sock A uname
          { toUser := some B, content := some m1, chatId := none } t1 true).1
        sock A uname
        { toUser := some B, content := some m2, chatId := none } t2 true).1).store.chats.filter
      (fun c => A ∈ c.participants ∧ B ∈ c.participants)).length = 1) ∧
    (∀ c ∈ (((sendMessageHandler
        (sendMessageHandler st sock A uname
          { toUser := some B, content := some m1, chatId := none } t1 true).1
        sock A uname
        { toUser := some B, content := some m2, chatId := none } t2 true).1).store.chats),
      A ∈ c.participants ∧ B ∈ c.participants →
      c.participants = sortIds [A, B] ∧ c.isGroup = false) ∧
    (((sendMessageHandler
        (sendMessageHandler st sock A uname
          { toUser := some B, content := some m1, chatId := none } t1 true).1
        sock A uname
        { toUser := some B, content := some m2, chatId := none } t2 true).1).store.chats).length =
    (((sendMessageHandler st sock A uname
        { toUser := some B, content := some m1, chatId := none } t1 true).1).store.chats).length := by
  have hdec : ∀ c : ChatRec,
      (decide (A ∈ c.participants ∧ B ∈ c.participants)) = true ↔
      (A ∈ c.participants ∧ B ∈ c.participants) := by
    intro c
    simp
  have hfind1 : st.store.chats.find?
      (fun c => A ∈ c.participants ∧ B ∈ c.participants) = none := by
    apply List.find?_eq_none.mpr
    intro c hc hp
    exact hno c hc ((hdec c).mp hp)
  have h1 := send_no_chatid_create st sock A uname B m1 t1 hB hm1 hfind1
  have hf2 : (((sendMessageHandler st sock A uname
      { toUser := some B, content := some m1, chatId := none } t1 true).1).store.chats).find?
      (fun c2 => A ∈ c2.participants ∧ B ∈ c2.participants) =
      some { id := st.store.nextChatId, participants := sortIds [A, B],
             lastMessage := some st.store.nextMessageId, isGroup := false,
             lastActivity := t1, updatedAt := t1 } := by
    rw [h1]
    show (st.store.chats ++
      [({ id := st.store.nextChatId, participants := sortIds [A, B],
          lastMessage := some st.store.nextMessageId, isGroup := false,
          lastActivity := t1, updatedAt := t1 } : ChatRec)]).find? _ = _
    rw [List.find?_append, hfind1]
    simp [List.find?_cons, mem_sortIds]
  have h2 := send_no_chatid_found
    ((sendMessageHandler st sock A uname
      { toUser := some B, content := some m1, chatId := none } t1 true).1)
    sock A uname B m2 t2 hB hm2
    { id := st.store.nextChatId, participants := sortIds [A, B],
      lastMessage := some st.store.nextMessageId, isGroup := false,
      lastActivity := t1, updatedAt := t1 }
    hf2
  rw [h2, h1]
  dsimp only
  have hmap : (st.store.chats ++
      [({ id := st.store.nextChatId, participants := sortIds [A, B],
          lastMessage := some st.store.nextMessageId, isGroup := false,
          lastActivity := t1, updatedAt := t1 } : ChatRec)]).map (fun old : ChatRec =>
        if old.id = st.store.nextChatId then
          chatPreSave
            { id := st.store.nextChatId, participants := sortIds [A, B],
              lastMessage := some (st.store.nextMessageId + 1), isGroup := false,
              lastActivity := t1, updatedAt := t2 } t2
        else old) =
      st.store.chats ++
      [chatPreSave
        { id := st.store.nextChatId, participants := sortIds [A, B],
          lastMessage := some (st.store.nextMessageId + 1), isGroup := false,
          lastActivity := t1, updatedAt := t2 } t2] := by
    rw [List.map_append]
    congr 1
    · apply map_id_of_mem
      intro x hx
      dsimp only
      rw [if_neg (Nat.ne_of_lt (hwf x hx))]
    · simp
  rw [hmap]
  have hfilter : st.store.chats.filter
      (fun c => A ∈ c.participants ∧ B ∈ c.participants) = [] := by
    apply List.filter_eq_nil_iff.mpr
    intro c hc hp
    exact hno c hc ((hdec c).mp hp)
  have hpfinal : (A ∈ sortIds (sortIds [A, B]) ∧ B ∈ sortIds (sortIds [A, B])) := by
    rw [sortIds_pair_idem]
    constructor
    · exact (mem_sortIds A [A, B]).mpr (by simp)
    · exact (mem_sortIds B [A, B]).mpr (by simp)
  refine ⟨?_, ?_, ?_⟩
  · rw [List.filter_append, hfilter]
    simp [chatPreSave, hpfinal]
  · intro c hc hmem
    rcases List.mem_append.mp hc with hl | hr
    · exact absurd hmem (hno c hl)
    · simp at hr
      subst hr
      exact ⟨by simp [chatPreSave, sortIds_pair_idem], rfl⟩
  · simp

/-- C3 witness: on an empty server, A sends to B twice with no chatId;
exactly one chat contains both, its participants are the sorted pair, it
is non-group, and the second send added no chat. -/
theorem double_send_single_chat_witness :
    ((((sendMessageHandler
        (sendMessageHandler emptyServer "s1" "A" "alice"
          { toUser := some "B", content := some "x", chatId := none } 0 true).1
        "s1" "A" "alice"
        { toUser := some "B", content := some "y", chatId := none } 1 true).1).store.chats.filter
      (fun c => "A" ∈ c.participants ∧ "B" ∈ c.participants)).length = 1) ∧
    (∀ c ∈ (((sendMessageHandler
        (sendMessageHandler emptyServer "s1" "A" "alice"
          { toUser := some "B", content := some "x", chatId := none } 0 true).1
        "s1" "A" "alice"
        { toUser := some "B", content := some "y", chatId := none } 1 true).1).store.chats),
      "A" ∈ c.participants ∧ "B" ∈ c.participants →
      c.participants = sortIds ["A", "B"] ∧ c.isGroup = false) ∧
    (((sendMessageHandler
        (sendMessageHandler emptyServer "s1" "A" "alice"
          { toUser := some "B", content := some "x", chatId := none } 0 true).1
        "s1" "A" "alice"
        { toUser := some "B", content := some "y", chatId := none } 1 true).1).store.chats).length =
    (((sendMessageHandler emptyServer "s1" "A" "alice"
        { toUser := some "B", content := some "x", chatId := none } 0 true).1).store.chats).length :=
  double_send_single_chat emptyServer "s1" "alice" "A" "B" "x" "y" 0 1
    (by decide) (by decide) (by decide) (by decide)
    (by intro c hc; simp [emptyServer, emptyStore] at hc)
    (by intro c hc; simp [emptyServer, emptyStore] at hc)

end ChatApp
